import Mathlib

/-!
Verification development for the EMBL-EBI Proteins MCP repository.

The definitions below are a shallow embedding of the two components the
claims concern:
* `EMBLEBIBridge._make_request` (bridge.py, lines 42-101): the shared HTTP
  request primitive with its retry/backoff loop;
* `EMBLEBIBridge.find_protein_accession` and
  `EMBLEBIBridge.get_protein_summary` (bridge.py, lines 104-192);
* the tool registry, the per-tool handler closures and the global dispatch
  handler (mcp_server.py, lines 31-544), plus the name/required projection of
  `get_tool_definitions` (mcp_server.py, lines 550-967).

Network I/O is modelled by oracles: the outcome of each HTTP attempt (for the
request loop) and the outcome of each bridge call (for the handlers) are
inputs, so every definition is executable on concrete outcomes.
-/

/-- JSON-compatible Python values (dicts modelled as insertion-ordered
association lists, as all dict literals in the source are built in a fixed
key order). -/
inductive Json where
  | null : Json
  | bool (b : Bool) : Json
  | num (n : Int) : Json
  | str (s : String) : Json
  | arr (elems : List Json) : Json
  | obj (fields : List (String × Json)) : Json

/-- Python truthiness (`if not x`): `None`, `False`, `0`, `""`, `[]` and
an empty dict are falsy; everything else is truthy. -/
def Json.isTruthy : Json → Bool
  | .null => false
  | .bool b => b
  | .num n => n != 0
  | .str s => s != ""
  | .arr elems => !elems.isEmpty
  | .obj fields => !fields.isEmpty

/-- The Python type name of a value, as it appears in runtime error
messages such as TypeError and AttributeError. -/
def pyTypeName : Json → String
  | .null => "NoneType"
  | .bool _ => "bool"
  | .num _ => "int"
  | .str _ => "str"
  | .arr _ => "list"
  | .obj _ => "dict"

/-! ## URL construction (bridge.py lines 44-52)

Query-parameter values in every bridge method are string literals, ints, or
`None` (the omission sentinel), so parameter values are modelled by a scalar
type. -/

inductive ParamVal where
  | null : ParamVal
  | num (n : Int) : ParamVal
  | str (s : String) : ParamVal
deriving DecidableEq

/-- Python `str()` on a scalar parameter value, as applied by `urlencode`. -/
def ParamVal.pyStr : ParamVal → String
  | .null => "None"
  | .num n => toString n
  | .str s => s

/-- Characters left unescaped by Python `urllib.parse.quote_plus`
(the `_ALWAYS_SAFE` set: ASCII letters, digits, and `_.-~`). -/
def safeByte (b : Nat) : Bool :=
  (65 ≤ b && b ≤ 90) || (97 ≤ b && b ≤ 122) || (48 ≤ b && b ≤ 57) ||
  b == 95 || b == 46 || b == 45 || b == 126

/-- Uppercase hexadecimal digit, as used by percent-encoding. -/
def hexDigitUpper (n : Nat) : Char :=
  if n < 10 then Char.ofNat (48 + n) else Char.ofNat (55 + n)

/-- `quote_plus` applied to one UTF-8 byte: safe bytes pass through, a space
becomes `+`, everything else becomes `%XX`. -/
def quoteByte (b : Nat) : String :=
  if safeByte b then String.mk [Char.ofNat b]
  else if b == 32 then "+"
  else String.mk ['%', hexDigitUpper (b / 16), hexDigitUpper (b % 16)]

/-- The UTF-8 bytes of a string. -/
def utf8Bytes (s : String) : List Nat :=
  s.data.flatMap (fun c => (String.utf8EncodeChar c).map (fun b => b.toNat))

/-- Python `urllib.parse.quote_plus`: percent-encode the UTF-8 bytes of a
string, mapping spaces to `+`. -/
def quote_plus (s : String) : String :=
  ((utf8Bytes s).map quoteByte).foldr (· ++ ·) ""

/-- Python `urllib.parse.urlencode` on an (ordered) parameter mapping:
`quote_plus(str(k)) ++ "=" ++ quote_plus(str(v))`, joined by `&`. -/
def urlencode (params : List (String × ParamVal)) : String :=
  String.intercalate "&"
    (params.map (fun kv => quote_plus kv.1 ++ "=" ++ quote_plus kv.2.pyStr))

/-- Python `s.rstrip('/')`. -/
def rstripSlash (s : String) : String :=
  String.mk (s.data.reverse.dropWhile (· == '/')).reverse

/-- Python `s.lstrip('/')`. -/
def lstripSlash (s : String) : String :=
  String.mk (s.data.dropWhile (· == '/'))

/-- The fixed base URL of the bridge (bridge.py line 24). -/
def base_url : String := "https://www.ebi.ac.uk/proteins/api"

/-- URL construction of `_make_request` (bridge.py lines 47-52): join base
and endpoint with exactly one slash at the boundary; when a parameter dict
was passed and is non-empty, drop `None`-valued entries and append the
url-encoded remainder after `?`. -/
def buildUrl (baseUrl endpoint : String)
    (params : Option (List (String × ParamVal))) : String :=
  let url := rstripSlash baseUrl ++ "/" ++ lstripSlash endpoint
  match params with
  | none => url
  | some ps =>
    if ps.isEmpty then url
    else url ++ "?" ++ urlencode (ps.filter (fun kv => kv.2 != ParamVal.null))

/-- Endpoint string built by `get_protein_by_accession` (bridge.py line 216):
the accession is interpolated into the path verbatim. -/
def proteinByAccessionEndpoint (accession : String) : String :=
  "proteins/" ++ accession

/-! ## The retry loop of `_make_request` (bridge.py lines 56-101) -/

/-- Decimal digit. -/
def digitChar (n : Nat) : Char := Char.ofNat (48 + n)

/-- Decimal digits of `n`, most significant first (`fuel ≥ n + 1` suffices). -/
def natReprAux : Nat → Nat → List Char
  | 0, _ => []
  | fuel + 1, n =>
    if n < 10 then [digitChar n]
    else natReprAux fuel (n / 10) ++ [digitChar (n % 10)]

/-- Decimal representation of a natural number, as interpolated into the
source's f-string error messages. -/
def natRepr (n : Nat) : String := String.mk (natReprAux (n + 1) n)

/-- Outcome of one GET attempt: a response (status code, parsed
`Retry-After` header when present, JSON body read on status 200, text body
read on error statuses), an `aiohttp.ClientError` carrying a message, or an
`asyncio.TimeoutError`. -/
inductive AttemptOutcome where
  | response (status : Nat) (retryAfter : Option Nat) (jsonBody : Json)
      (textBody : String) : AttemptOutcome
  | clientError (msg : String) : AttemptOutcome
  | timeoutError : AttemptOutcome

/-- Observable behaviour of one `_make_request` call: how many GET attempts
were issued, the backoff sleeps performed (in order, in seconds), and the
final outcome (`.ok` = returned JSON, `.error` = raised exception message). -/
structure ReqTrace where
  attemptsMade : Nat
  sleeps : List Nat
  result : Except String Json

/-- Prefix a trace with one more issued attempt followed by a sleep. -/
def ReqTrace.after (sleep : Nat) (t : ReqTrace) : ReqTrace :=
  ⟨t.attemptsMade + 1, sleep :: t.sleeps, t.result⟩

/-- The body of `for attempt in range(self.max_retries)` (bridge.py lines
56-101), one constructor case per branch of the source. `env i` is the
outcome of the GET issued on loop iteration `i`; `remaining` is the number
of loop iterations left (`max_retries - attempt`). Falling out of the loop
raises the generic exhausted-retries error of line 101. -/
def requestAttempts (env : Nat → AttemptOutcome) (maxRetries retryDelay : Nat) :
    Nat → Nat → ReqTrace
  | _, 0 =>
    ⟨0, [], .error ("Failed to complete request after " ++ natRepr maxRetries
      ++ " attempts")⟩
  | attempt, remaining + 1 =>
    match env attempt with
    | .response status retryAfterHeader jsonBody textBody =>
      if status == 200 then
        ⟨1, [], .ok jsonBody⟩
      else if status == 404 then
        ⟨1, [], .error ("Resource not found (404): " ++ textBody)⟩
      else if status == 429 then
        -- rate limited: sleep Retry-After if present, else retry_delay * (attempt+1)
        let retryAfter := retryAfterHeader.getD (retryDelay * (attempt + 1))
        (requestAttempts env maxRetries retryDelay (attempt + 1) remaining).after
          retryAfter
      else if 500 ≤ status then
        if attempt < maxRetries - 1 then
          (requestAttempts env maxRetries retryDelay (attempt + 1) remaining).after
            (retryDelay * (attempt + 1))
        else
          ⟨1, [], .error ("Server error " ++ natRepr status ++ ": " ++ textBody)⟩
      else
        ⟨1, [], .error ("API request failed with status " ++ natRepr status
          ++ ": " ++ textBody)⟩
    | .clientError msg =>
      if attempt < maxRetries - 1 then
        (requestAttempts env maxRetries retryDelay (attempt + 1) remaining).after
          (retryDelay * (attempt + 1))
      else
        ⟨1, [], .error msg⟩
    | .timeoutError =>
      if attempt < maxRetries - 1 then
        (requestAttempts env maxRetries retryDelay (attempt + 1) remaining).after
          (retryDelay * (attempt + 1))
      else
        -- `raise` re-propagates the bare asyncio.TimeoutError (empty message)
        ⟨1, [], .error ""⟩

/-- `_make_request` with the constructor defaults `max_retries = 3`,
`retry_delay = 1.0` (bridge.py lines 31-32). -/
def make_request (env : Nat → AttemptOutcome) : ReqTrace :=
  requestAttempts env 3 1 0 3

/-! ## `find_protein_accession` (bridge.py lines 104-142) -/

/-- Python `organism.lower()` (all table keys are ASCII). -/
def strLower (s : String) : String := String.mk (s.data.map Char.toLower)

/-- The fixed common-name → taxonomy-id table (bridge.py lines 115-122). -/
def organism_map : List (String × String) :=
  [("human", "9606"), ("mouse", "10090"), ("rat", "10116"),
   ("yeast", "559292"), ("e.coli", "83333"), ("drosophila", "7227")]

/-- Python `d[k] = v` on an insertion-ordered dict: update in place when the
key exists, otherwise append. -/
def dictSet (d : List (String × ParamVal)) (k : String) (v : ParamVal) :
    List (String × ParamVal) :=
  if d.any (fun kv => kv.1 == k) then
    d.map (fun kv => if kv.1 == k then (k, v) else kv)
  else d ++ [(k, v)]

/-- Python `d.pop(k, None)`: remove the key when present. -/
def dictPop (d : List (String × ParamVal)) (k : String) :
    List (String × ParamVal) :=
  d.filter (fun kv => kv.1 != k)

/-- The query-parameter dict built by `find_protein_accession` for its
initial gene-based search (bridge.py lines 124-133): start from
`offset=0, size=10`; set `taxid` to the mapped taxonomy id when the
lower-cased organism is in the table, else set `organism` verbatim; finally
set `gene` to the given name. -/
def find_protein_accession_params (gene_name organism : String) :
    List (String × ParamVal) :=
  let params := [("offset", ParamVal.num 0), ("size", ParamVal.num 10)]
  let params :=
    match organism_map.lookup (strLower organism) with
    | some taxid => dictSet params "taxid" (.str taxid)
    | none => dictSet params "organism" (.str organism)
  dictSet params "gene" (.str gene_name)

/-- `find_protein_accession` (bridge.py lines 135-142), with the outcome of
each `_make_request (endpoint, params)` call supplied by the oracle `req`:
try the gene-based search; on any failure, retry with `gene` replaced by a
`protein` parameter. -/
def find_protein_accession
    (req : String → List (String × ParamVal) → Except String Json)
    (gene_name organism : String) : Except String Json :=
  let params := find_protein_accession_params gene_name organism
  match req "proteins" params with
  | .ok result => .ok result
  | .error _ =>
    req "proteins" (dictSet (dictPop params "gene") "protein" (.str gene_name))

/-! ## `get_protein_summary` (bridge.py lines 144-192) -/

/-- Outcomes of the three bridge calls `get_protein_summary` can make:
`find_protein_accession`, `get_features_by_accession` and
`get_protein_interactions` (`.error` = the call raised with that message). -/
structure SummaryEnv where
  findResult : Except String Json
  featuresResult : Except String Json
  interactionsResult : Except String Json

/-- The success path of `get_protein_summary` once a first result `protein`
has been selected (bridge.py lines 163-189): read its `accession` via
`.get`, bail out with an error dict when it is missing/falsy, otherwise
assemble the summary dict and capture each sub-call failure as a
`<field>_error` string instead of raising. A non-dict `protein` makes
`protein.get` raise AttributeError, which the enclosing handler of line 191
converts to an error dict. -/
def summaryOfProtein (env : SummaryEnv) (gene_name organism : String)
    (protein : Json) : Json :=
  match protein with
  | .obj fields =>
    let accession := ((fields.lookup "accession").getD .null)
    if !accession.isTruthy then
      .obj [("error", .str "No accession found in search results")]
    else
      let summary := [("gene_name", Json.str gene_name),
                      ("organism", Json.str organism),
                      ("accession", accession),
                      ("basic_info", protein)]
      let summary :=
        match env.featuresResult with
        | .ok features => summary ++ [("features", features)]
        | .error e => summary ++ [("features_error", .str e)]
      let summary :=
        match env.interactionsResult with
        | .ok interactions => summary ++ [("interactions", interactions)]
        | .error e => summary ++ [("interactions_error", .str e)]
      .obj summary
  | _ =>
    .obj [("error", .str ("Failed to get protein summary: \x27"
      ++ pyTypeName protein ++ "\x27 object has no attribute \x27get\x27"))]

/-- `get_protein_summary` (bridge.py lines 144-192). The whole body sits in
a `try` whose handler returns `{"error": "Failed to get protein summary: ..."}`,
so the result is always `.ok`: a failing accession search, an empty search
result, a result without accession, and even a TypeError from `len()` on an
unsized value all become returned error dicts, never raised exceptions. -/
def get_protein_summary (env : SummaryEnv) (gene_name organism : String) :
    Except String Json :=
  match env.findResult with
  | .error e =>
    .ok (.obj [("error", .str ("Failed to get protein summary: " ++ e))])
  | .ok searchResult =>
    if !searchResult.isTruthy then
      .ok (.obj [("error", .str ("No protein found for " ++ gene_name
        ++ " in " ++ organism))])
    else
      match searchResult with
      | .num _ | .bool _ =>
        -- `len(search_result)` raises TypeError, caught by the outer handler
        .ok (.obj [("error", .str ("Failed to get protein summary: object of type \x27"
          ++ pyTypeName searchResult ++ "\x27 has no len()"))])
      | .arr (protein :: _) => .ok (summaryOfProtein env gene_name organism protein)
      | .arr [] =>
        -- unreachable: an empty list is falsy and was returned above
        .ok (.obj [("error", .str ("No protein found for " ++ gene_name
          ++ " in " ++ organism))])
      | other => .ok (summaryOfProtein env gene_name organism other)

/-! ## Serialization: `json.dumps(result, indent=2)` (mcp_server.py) -/

/-- Lowercase four-digit hexadecimal, as in Python JSON `\uXXXX` escapes. -/
def hex4 (n : Nat) : String :=
  let d := fun k => if k < 10 then Char.ofNat (48 + k) else Char.ofNat (87 + k)
  String.mk [d (n / 4096 % 16), d (n / 256 % 16), d (n / 16 % 16), d (n % 16)]

/-- Escaping of one character inside a JSON string literal with
`ensure_ascii=True` (the `json.dumps` default): printable ASCII other than
quote and backslash passes through, everything else is escaped. -/
def escapeJsonChar (c : Char) : String :=
  if c = Char.ofNat 34 then String.mk [Char.ofNat 92, Char.ofNat 34]
  else if c = Char.ofNat 92 then String.mk [Char.ofNat 92, Char.ofNat 92]
  else if c = Char.ofNat 10 then String.mk [Char.ofNat 92, 'n']
  else if c = Char.ofNat 9 then String.mk [Char.ofNat 92, 't']
  else if c = Char.ofNat 13 then String.mk [Char.ofNat 92, 'r']
  else if c = Char.ofNat 8 then String.mk [Char.ofNat 92, 'b']
  else if c = Char.ofNat 12 then String.mk [Char.ofNat 92, 'f']
  else if c.toNat < 32 then String.mk [Char.ofNat 92, 'u'] ++ hex4 c.toNat
  else if c.toNat < 127 then String.mk [c]
  else if c.toNat < 65536 then String.mk [Char.ofNat 92, 'u'] ++ hex4 c.toNat
  else
    let v := c.toNat - 65536
    String.mk [Char.ofNat 92, 'u'] ++ hex4 (55296 + v / 1024)
      ++ String.mk [Char.ofNat 92, 'u'] ++ hex4 (56320 + v % 1024)

/-- A JSON string literal as produced by `json.dumps`. -/
def dumpString (s : String) : String :=
  String.mk [Char.ofNat 34]
    ++ (s.data.map escapeJsonChar).foldr (· ++ ·) ""
    ++ String.mk [Char.ofNat 34]

/-- `n` spaces. -/
def spacesN (n : Nat) : String := String.mk (List.replicate n ' ')

mutual
/-- `json.dumps(v, indent=2)` at nesting level `lvl`: two-space indentation,
`", "`-free item separator (`,` + newline) and `": "` key separator, `[]`
and `\x7b\x7d` for empty containers. -/
def dumpJson : Json → Nat → String
  | .null, _ => "null"
  | .bool true, _ => "true"
  | .bool false, _ => "false"
  | .num n, _ => toString n
  | .str s, _ => dumpString s
  | .arr [], _ => "[]"
  | .arr (x :: xs), lvl =>
    "[\n" ++ dumpJsonItems (x :: xs) (lvl + 1) ++ "\n" ++ spacesN (2 * lvl) ++ "]"
  | .obj [], _ => "\x7b\x7d"
  | .obj (f :: fs), lvl =>
    "\x7b\n" ++ dumpJsonFields (f :: fs) (lvl + 1) ++ "\n" ++ spacesN (2 * lvl)
      ++ "\x7d"

def dumpJsonItems : List Json → Nat → String
  | [], _ => ""
  | [x], lvl => spacesN (2 * lvl) ++ dumpJson x lvl
  | x :: y :: xs, lvl =>
    spacesN (2 * lvl) ++ dumpJson x lvl ++ ",\n" ++ dumpJsonItems (y :: xs) lvl

def dumpJsonFields : List (String × Json) → Nat → String
  | [], _ => ""
  | [(k, v)], lvl => spacesN (2 * lvl) ++ dumpString k ++ ": " ++ dumpJson v lvl
  | (k, v) :: f :: fs, lvl =>
    spacesN (2 * lvl) ++ dumpString k ++ ": " ++ dumpJson v lvl ++ ",\n"
      ++ dumpJsonFields (f :: fs) lvl
end

/-- `json.dumps(v, indent=2)`, as every handler applies to its result. -/
def jsonDumps (v : Json) : String := dumpJson v 0

mutual
/-- Python `repr` of a JSON-like value (container elements are shown with
`repr`; escaping of quotes inside strings is not reproduced, and no source
call site passes a container or a string needing it). -/
def pyReprJson : Json → String
  | .null => "None"
  | .bool true => "True"
  | .bool false => "False"
  | .num n => toString n
  | .str s => "\x27" ++ s ++ "\x27"
  | .arr xs => "[" ++ pyReprList xs ++ "]"
  | .obj fs => "\x7b" ++ pyReprFields fs ++ "\x7d"

def pyReprList : List Json → String
  | [] => ""
  | [x] => pyReprJson x
  | x :: y :: xs => pyReprJson x ++ ", " ++ pyReprList (y :: xs)

def pyReprFields : List (String × Json) → String
  | [] => ""
  | [(k, v)] => "\x27" ++ k ++ "\x27: " ++ pyReprJson v
  | (k, v) :: f :: fs =>
    "\x27" ++ k ++ "\x27: " ++ pyReprJson v ++ ", " ++ pyReprFields (f :: fs)
end

/-- Python `str()` on a JSON-like value (`str` of a string is itself;
containers fall back to `repr`), as used by `str(tax_id)` in the taxonomy
handlers. -/
def pyStrJson : Json → String
  | .str s => s
  | v => pyReprJson v

/-! ## Tool handlers (mcp_server.py lines 76-544)

Each handler extracts named arguments from the input mapping, optionally
raises a validation `ValueError`, and then performs exactly one bridge call.
A handler's observable behaviour up to that call is a value of
`Except String BridgeCall`: `.error msg` is a raised exception, `.ok call`
names the bridge method invoked and the argument values passed to it. -/

/-- A content block (`mcp.types.TextContent`). -/
structure TextContent where
  type : String
  text : String
deriving DecidableEq

/-- The `arguments: dict` a handler receives. -/
abbrev Args := List (String × Json)

/-- Python `arguments.get(key, default)`. -/
def argGetD (arguments : Args) (key : String) (dflt : Json) : Json :=
  (arguments.lookup key).getD dflt

/-- The bridge method a handler invokes, together with the argument values
it passes (taxonomy handlers pass `str(tax_id)`). -/
inductive BridgeCall where
  | getProteinSummary (gene_name organism : Json)
  | findProteinAccession (gene_name organism : Json)
  | searchProteins (query size offset : Json)
  | getProteinByAccession (accession : Json)
  | getProteinInteractions (accession : Json)
  | getProteinIsoforms (accession : Json)
  | searchFeatures (query size offset : Json)
  | getFeaturesByAccession (accession : Json)
  | getFeaturesByType (feature_type size offset : Json)
  | searchVariations (query size offset : Json)
  | getVariationsByAccession (accession : Json)
  | getVariationsByDbsnp (dbid : Json)
  | searchAntigens (query size offset : Json)
  | getAntigenByAccession (accession : Json)
  | searchEpitopes (query size offset : Json)
  | getEpitopeByAccession (accession : Json)
  | searchProteomics (query size offset : Json)
  | getProteomicsByAccession (accession : Json)
  | getProteomicsSpecies
  | searchProteomes (query size offset : Json)
  | getProteomeByUpid (upid : Json)
  | getProteomeProteins (upid : Json)
  | getTaxonomyById (tax_id : String)
  | getTaxonomyLineage (tax_id : String)
  | getTaxonomyChildren (tax_id : String)
  | searchCoordinates (query size offset : Json)
  | getCoordinatesByAccession (accession : Json)
  | searchUniparc (query size offset : Json)
  | getUniparcByUpi (upi : Json)
  | getUniparcByAccession (accession : Json)

/-- A tool handler up to its bridge call. -/
abbrev ToolHandler := Args → Except String BridgeCall

def get_protein_summary_tool : ToolHandler := fun arguments =>
  let gene_name := argGetD arguments "gene_name" (.str "")
  let organism := argGetD arguments "organism" (.str "human")
  if !gene_name.isTruthy then .error "gene_name parameter is required"
  else .ok (.getProteinSummary gene_name organism)

def find_protein_accession_tool : ToolHandler := fun arguments =>
  let gene_name := argGetD arguments "gene_name" (.str "")
  let organism := argGetD arguments "organism" (.str "human")
  if !gene_name.isTruthy then .error "gene_name parameter is required"
  else .ok (.findProteinAccession gene_name organism)

def search_proteins_tool : ToolHandler := fun arguments =>
  let query := argGetD arguments "query" (.str "")
  let size := argGetD arguments "size" (.num 20)
  let offset := argGetD arguments "offset" (.num 0)
  .ok (.searchProteins query size offset)

def get_protein_by_accession_tool : ToolHandler := fun arguments =>
  let accession := argGetD arguments "accession" .null
  if !accession.isTruthy then .error "accession parameter is required"
  else .ok (.getProteinByAccession accession)

def get_protein_interactions_tool : ToolHandler := fun arguments =>
  let accession := argGetD arguments "accession" .null
  if !accession.isTruthy then .error "accession parameter is required"
  else .ok (.getProteinInteractions accession)

def get_protein_isoforms_tool : ToolHandler := fun arguments =>
  let accession := argGetD arguments "accession" .null
  if !accession.isTruthy then .error "accession parameter is required"
  else .ok (.getProteinIsoforms accession)

def search_features_tool : ToolHandler := fun arguments =>
  let query := argGetD arguments "query" (.str "")
  let size := argGetD arguments "size" (.num 20)
  let offset := argGetD arguments "offset" (.num 0)
  .ok (.searchFeatures query size offset)

def get_features_by_accession_tool : ToolHandler := fun arguments =>
  let accession := argGetD arguments "accession" .null
  if !accession.isTruthy then .error "accession parameter is required"
  else .ok (.getFeaturesByAccession accession)

def get_features_by_type_tool : ToolHandler := fun arguments =>
  let feature_type := argGetD arguments "feature_type" .null
  if !feature_type.isTruthy then .error "feature_type parameter is required"
  else
    let size := argGetD arguments "size" (.num 20)
    let offset := argGetD arguments "offset" (.num 0)
    .ok (.getFeaturesByType feature_type size offset)

def search_variations_tool : ToolHandler := fun arguments =>
  let query := argGetD arguments "query" (.str "")
  let size := argGetD arguments "size" (.num 20)
  let offset := argGetD arguments "offset" (.num 0)
  .ok (.searchVariations query size offset)

def get_variations_by_accession_tool : ToolHandler := fun arguments =>
  let accession := argGetD arguments "accession" .null
  if !accession.isTruthy then .error "accession parameter is required"
  else .ok (.getVariationsByAccession accession)

def get_variations_by_dbsnp_tool : ToolHandler := fun arguments =>
  let dbid := argGetD arguments "dbid" .null
  if !dbid.isTruthy then .error "dbid parameter is required"
  else .ok (.getVariationsByDbsnp dbid)

def search_antigens_tool : ToolHandler := fun arguments =>
  let query := argGetD arguments "query" (.str "")
  let size := argGetD arguments "size" (.num 20)
  let offset := argGetD arguments "offset" (.num 0)
  .ok (.searchAntigens query size offset)

def get_antigen_by_accession_tool : ToolHandler := fun arguments =>
  let accession := argGetD arguments "accession" .null
  if !accession.isTruthy then .error "accession parameter is required"
  else .ok (.getAntigenByAccession accession)

def search_epitopes_tool : ToolHandler := fun arguments =>
  let query := argGetD arguments "query" (.str "")
  let size := argGetD arguments "size" (.num 20)
  let offset := argGetD arguments "offset" (.num 0)
  .ok (.searchEpitopes query size offset)

def get_epitope_by_accession_tool : ToolHandler := fun arguments =>
  let accession := argGetD arguments "accession" .null
  if !accession.isTruthy then .error "accession parameter is required"
  else .ok (.getEpitopeByAccession accession)

def search_proteomics_tool : ToolHandler := fun arguments =>
  let query := argGetD arguments "query" (.str "")
  let size := argGetD arguments "size" (.num 20)
  let offset := argGetD arguments "offset" (.num 0)
  .ok (.searchProteomics query size offset)

def get_proteomics_by_accession_tool : ToolHandler := fun arguments =>
  let accession := argGetD arguments "accession" .null
  if !accession.isTruthy then .error "accession parameter is required"
  else .ok (.getProteomicsByAccession accession)

def get_proteomics_species_tool : ToolHandler := fun _arguments =>
  .ok .getProteomicsSpecies

def search_proteomes_tool : ToolHandler := fun arguments =>
  let query := argGetD arguments "query" (.str "")
  let size := argGetD arguments "size" (.num 20)
  let offset := argGetD arguments "offset" (.num 0)
  .ok (.searchProteomes query size offset)

def get_proteome_by_upid_tool : ToolHandler := fun arguments =>
  let upid := argGetD arguments "upid" .null
  if !upid.isTruthy then .error "upid parameter is required"
  else .ok (.getProteomeByUpid upid)

def get_proteome_proteins_tool : ToolHandler := fun arguments =>
  let upid := argGetD arguments "upid" .null
  if !upid.isTruthy then .error "upid parameter is required"
  else .ok (.getProteomeProteins upid)

def get_taxonomy_by_id_tool : ToolHandler := fun arguments =>
  let tax_id := argGetD arguments "tax_id" .null
  if !tax_id.isTruthy then .error "tax_id parameter is required"
  else .ok (.getTaxonomyById (pyStrJson tax_id))

def get_taxonomy_lineage_tool : ToolHandler := fun arguments =>
  let tax_id := argGetD arguments "tax_id" .null
  if !tax_id.isTruthy then .error "tax_id parameter is required"
  else .ok (.getTaxonomyLineage (pyStrJson tax_id))

def get_taxonomy_children_tool : ToolHandler := fun arguments =>
  let tax_id := argGetD arguments "tax_id" .null
  if !tax_id.isTruthy then .error "tax_id parameter is required"
  else .ok (.getTaxonomyChildren (pyStrJson tax_id))

def search_coordinates_tool : ToolHandler := fun arguments =>
  let query := argGetD arguments "query" (.str "")
  let size := argGetD arguments "size" (.num 20)
  let offset := argGetD arguments "offset" (.num 0)
  .ok (.searchCoordinates query size offset)

def get_coordinates_by_accession_tool : ToolHandler := fun arguments =>
  let accession := argGetD arguments "accession" .null
  if !accession.isTruthy then .error "accession parameter is required"
  else .ok (.getCoordinatesByAccession accession)

def search_uniparc_tool : ToolHandler := fun arguments =>
  let query := argGetD arguments "query" (.str "")
  let size := argGetD arguments "size" (.num 20)
  let offset := argGetD arguments "offset" (.num 0)
  .ok (.searchUniparc query size offset)

def get_uniparc_by_upi_tool : ToolHandler := fun arguments =>
  let upi := argGetD arguments "upi" .null
  if !upi.isTruthy then .error "upi parameter is required"
  else .ok (.getUniparcByUpi upi)

def get_uniparc_by_accession_tool : ToolHandler := fun arguments =>
  let accession := argGetD arguments "accession" .null
  if !accession.isTruthy then .error "accession parameter is required"
  else .ok (.getUniparcByAccession accession)

/-- The tool registry `self._tool_registry`, in registration order
(mcp_server.py lines 513-542). -/
def toolRegistry : List (String × ToolHandler) :=
  [("get_protein_summary", get_protein_summary_tool),
   ("find_protein_accession", find_protein_accession_tool),
   ("search_proteins", search_proteins_tool),
   ("get_protein_by_accession", get_protein_by_accession_tool),
   ("get_protein_interactions", get_protein_interactions_tool),
   ("get_protein_isoforms", get_protein_isoforms_tool),
   ("search_features", search_features_tool),
   ("get_features_by_accession", get_features_by_accession_tool),
   ("get_features_by_type", get_features_by_type_tool),
   ("search_variations", search_variations_tool),
   ("get_variations_by_accession", get_variations_by_accession_tool),
   ("get_variations_by_dbsnp", get_variations_by_dbsnp_tool),
   ("search_antigens", search_antigens_tool),
   ("get_antigen_by_accession", get_antigen_by_accession_tool),
   ("search_epitopes", search_epitopes_tool),
   ("get_epitope_by_accession", get_epitope_by_accession_tool),
   ("search_proteomics", search_proteomics_tool),
   ("get_proteomics_by_accession", get_proteomics_by_accession_tool),
   ("get_proteomics_species", get_proteomics_species_tool),
   ("search_proteomes", search_proteomes_tool),
   ("get_proteome_by_upid", get_proteome_by_upid_tool),
   ("get_proteome_proteins", get_proteome_proteins_tool),
   ("get_taxonomy_by_id", get_taxonomy_by_id_tool),
   ("get_taxonomy_lineage", get_taxonomy_lineage_tool),
   ("get_taxonomy_children", get_taxonomy_children_tool),
   ("search_coordinates", search_coordinates_tool),
   ("get_coordinates_by_accession", get_coordinates_by_accession_tool),
   ("search_uniparc", search_uniparc_tool),
   ("get_uniparc_by_upi", get_uniparc_by_upi_tool),
   ("get_uniparc_by_accession", get_uniparc_by_accession_tool)]

/-- The outcome of a bridge call, supplied as an oracle (`.error` = the
bridge call raised with that message). -/
abbrev BridgeOracle := BridgeCall → Except String Json

/-- Running one handler to completion: its validation / bridge-call part
followed by serializing the bridge result into the single `TextContent`
block every handler returns (`json.dumps(result, indent=2)`). `.error` is
an exception propagating out of the handler. -/
def handlerRun (bridge : BridgeOracle) (handler : ToolHandler) (arguments : Args) :
    Except String (List TextContent) := do
  let call ← handler arguments
  let result ← bridge call
  pure [⟨"text", jsonDumps result⟩]

/-- `global_tool_handler` (mcp_server.py lines 46-72): look the tool up in
the registry, returning a single not-found error block for unknown names;
invoke the handler; convert any exception it raises into a single
`"Error: <message>"` block. The function is total: no exception crosses
this boundary. -/
def global_tool_handler (bridge : BridgeOracle) (tool_name : String)
    (arguments : Args) : List TextContent :=
  match toolRegistry.lookup tool_name with
  | none =>
    [⟨"text", "Error: Tool \x27" ++ tool_name ++ "\x27 not found"⟩]
  | some handler =>
    match handlerRun bridge handler arguments with
    | .ok result => result
    | .error e => [⟨"text", "Error: " ++ e⟩]

/-! ## Tool definitions (mcp_server.py lines 550-967) -/

/-- The name and the `required` list of one entry of
`get_tool_definitions()` (the projection of each `types.Tool` that the
claims about argument validation depend on). -/
structure ToolDef where
  name : String
  required : List String
deriving DecidableEq

/-- All thirty tool definitions, in the order of `get_tool_definitions()`,
each with the `required` list of its `inputSchema`. -/
def tool_definitions : List ToolDef :=
  [⟨"get_protein_summary", ["gene_name"]⟩,
   ⟨"find_protein_accession", ["gene_name"]⟩,
   ⟨"search_proteins", ["query"]⟩,
   ⟨"get_protein_by_accession", ["accession"]⟩,
   ⟨"get_protein_interactions", ["accession"]⟩,
   ⟨"get_protein_isoforms", ["accession"]⟩,
   ⟨"search_features", ["query"]⟩,
   ⟨"get_features_by_accession", ["accession"]⟩,
   ⟨"get_features_by_type", ["feature_type"]⟩,
   ⟨"search_variations", ["query"]⟩,
   ⟨"get_variations_by_accession", ["accession"]⟩,
   ⟨"get_variations_by_dbsnp", ["dbid"]⟩,
   ⟨"search_antigens", ["query"]⟩,
   ⟨"get_antigen_by_accession", ["accession"]⟩,
   ⟨"search_epitopes", ["query"]⟩,
   ⟨"get_epitope_by_accession", ["accession"]⟩,
   ⟨"search_proteomics", ["query"]⟩,
   ⟨"get_proteomics_by_accession", ["accession"]⟩,
   ⟨"get_proteomics_species", []⟩,
   ⟨"search_proteomes", ["query"]⟩,
   ⟨"get_proteome_by_upid", ["upid"]⟩,
   ⟨"get_proteome_proteins", ["upid"]⟩,
   ⟨"get_taxonomy_by_id", ["tax_id"]⟩,
   ⟨"get_taxonomy_lineage", ["tax_id"]⟩,
   ⟨"get_taxonomy_children", ["tax_id"]⟩,
   ⟨"search_coordinates", ["query"]⟩,
   ⟨"get_coordinates_by_accession", ["accession"]⟩,
   ⟨"search_uniparc", ["query"]⟩,
   ⟨"get_uniparc_by_upi", ["upi"]⟩,
   ⟨"get_uniparc_by_accession", ["accession"]⟩]

/-- The nine tools whose handlers read `query` with a `""` default instead
of validating it (mcp_server.py lines 112-124, 169-181, 215-227, 258-270,
287-299, 316-328, 355-367, 441-453, 470-482). -/
def searchToolNames : List String :=
  ["search_proteins", "search_features", "search_variations",
   "search_antigens", "search_epitopes", "search_proteomics",
   "search_proteomes", "search_coordinates", "search_uniparc"]


/-! ## Supporting lemmas -/
theorem requestAttempts_attemptsMade_le (env : Nat → AttemptOutcome)
    (mr rd : Nat) : ∀ fuel attempt,
    (requestAttempts env mr rd attempt fuel).attemptsMade ≤ fuel := by
  intro fuel
  induction fuel with
  | zero => intro attempt; exact Nat.le_refl 0
  | succ n ih =>
    intro attempt
    unfold requestAttempts
    cases env attempt with
    | response status retryAfterHeader jsonBody textBody =>
      dsimp only
      repeat' split
      all_goals simp only [ReqTrace.after]
      all_goals first
        | exact Nat.succ_le_succ (ih _)
        | exact Nat.succ_le_succ (Nat.zero_le _)
    | clientError msg =>
      dsimp only
      split
      · exact Nat.succ_le_succ (ih _)
      · exact Nat.succ_le_succ (Nat.zero_le _)
    | timeoutError =>
      dsimp only
      split
      · exact Nat.succ_le_succ (ih _)
      · exact Nat.succ_le_succ (Nat.zero_le _)

def urlSafeChar (c : Char) : Bool :=
  c.isAlphanum || c == '_' || c == '.' || c == '-' || c == '~' || c == '+' || c == '%'

set_option maxRecDepth 4096 in
theorem quoteByte_safe : ∀ b, b < 256 → ((quoteByte b).data.all urlSafeChar = true) := by decide

theorem mem_foldr_append {l : List String} {c : Char}
    (h : c ∈ (l.foldr (· ++ ·) "").data) : ∃ s ∈ l, c ∈ s.data := by
  induction l with
  | nil => simp at h
  | cons x xs ih =>
    simp only [List.foldr_cons, String.data_append, List.mem_append] at h
    rcases h with h | h
    · exact ⟨x, List.mem_cons_self x xs, h⟩
    · rcases ih h with ⟨s, hs, hc⟩
      exact ⟨s, List.mem_cons_of_mem x hs, hc⟩

theorem head?_dropWhile_slash (l : List Char) :
    (l.dropWhile (· == '/')).head? ≠ some '/' := by
  induction l with
  | nil => simp
  | cons x xs ih =>
    by_cases hx : (x == '/') = true
    · simpa [List.dropWhile, hx] using ih
    · simp only [List.dropWhile, hx]
      intro hcontra
      simp only [List.head?, Option.some.injEq] at hcontra
      subst hcontra
      simp at hx

theorem quote_plus_safe (s : String) :
    ∀ c ∈ (quote_plus s).data, urlSafeChar c = true := by
  intro c hc
  rcases mem_foldr_append (by simpa [quote_plus] using hc) with ⟨piece, hpiece, hcp⟩
  rcases List.mem_map.mp hpiece with ⟨b, hb, rfl⟩
  have hb256 : b < 256 := by
    have hb' : ∃ ch ∈ s.data, ∃ byte ∈ String.utf8EncodeChar ch, byte.toNat = b := by
      simpa [utf8Bytes] using hb
    rcases hb' with ⟨ch, _, byte, _, hbb⟩
    exact hbb ▸ byte.toNat_lt
  exact (List.all_eq_true.mp (quoteByte_safe b hb256)) c hcp

/-! ## Claims -/

/-- Claim C1: with attempt cap 3, responses 500, 500, 200 make
`_make_request` return the decoded JSON body of the 200 response (on the
3rd attempt, after backoff sleeps 1 and 2); three straight 500 responses
make it raise the server error carrying status and body after exactly 3
attempts; and for every outcome environment at most 3 attempts are ever
issued, so no 4th attempt is possible. -/
theorem claim_c1 (env : Nat → AttemptOutcome) (b : Json) (t : String) :
    make_request (fun i => if i < 2 then .response 500 none .null t
      else .response 200 none b "") = ⟨3, [1, 2], .ok b⟩
    ∧ make_request (fun _ => .response 500 none .null t)
      = ⟨3, [1, 2], .error ("Server error 500: " ++ t)⟩
    ∧ (make_request env).attemptsMade ≤ 3 :=
  ⟨rfl, rfl, requestAttempts_attemptsMade_le env 3 1 3 0⟩

/-- Claim C4: a 404 response on the first attempt makes `_make_request`
raise the not-found error carrying the response body after exactly 1
attempt, with no backoff sleep; and a 404 received mid-sequence (here after
a retried network error) is equally terminal, consuming no further
attempts. -/
theorem claim_c4 (t m : String) :
    make_request (fun _ => .response 404 none .null t)
      = ⟨1, [], .error ("Resource not found (404): " ++ t)⟩
    ∧ make_request (fun i => if i == 0 then .clientError m
        else .response 404 none .null t)
      = ⟨2, [1], .error ("Resource not found (404): " ++ t)⟩ :=
  ⟨rfl, rfl⟩

/-- Claim C5: on 429 the loop sleeps the `Retry-After` header value when
present (first sleep `ra`), else `retry_delay * (attempt+1)` (sleeps 2 and
3 on the header-less attempts), and each 429 consumes one of the 3 bounded
attempts; when every attempt is rate-limited the call fails with the
generic exhausted-retries error, not a rate-limit-specific one. -/
theorem claim_c5 (ra : Nat) :
    make_request (fun i => .response 429 (if i == 0 then some ra else none)
      .null "")
      = ⟨3, [ra, 2, 3], .error "Failed to complete request after 3 attempts"⟩ :=
  rfl

/-- Claim C2: for every registered tool and every arguments mapping, an
exception raised inside the handler (validation failure or bridge failure
alike) is caught at the dispatch boundary and converted into the single
content block `Error: <message>`; `global_tool_handler` is a total
function into content-block lists, so no exception passes it. -/
theorem claim_c2 (bridge : BridgeOracle) (tool_name : String)
    (arguments : Args) (handler : ToolHandler) (msg : String)
    (hlookup : toolRegistry.lookup tool_name = some handler)
    (hrun : handlerRun bridge handler arguments = .error msg) :
    global_tool_handler bridge tool_name arguments
      = [⟨"text", "Error: " ++ msg⟩] := by
  simp [global_tool_handler, hlookup, hrun]

/-- Witness for C2: the accession-lookup handler with empty arguments
raises the validation error, and dispatch surfaces it as the single
`Error: accession parameter is required` block. -/
theorem claim_c2_witness :
    toolRegistry.lookup "get_protein_by_accession"
      = some get_protein_by_accession_tool
    ∧ handlerRun (fun _ => .ok .null) get_protein_by_accession_tool []
      = .error "accession parameter is required"
    ∧ global_tool_handler (fun _ => .ok .null) "get_protein_by_accession" []
      = [⟨"text", "Error: accession parameter is required"⟩] :=
  ⟨rfl, rfl, claim_c2 _ _ _ _ _ rfl rfl⟩

/-- Claim C3: for every name missing from the registry and every arguments
mapping, dispatch returns exactly the single content block
`Error: Tool '<name>' not found` (and, being a total function, raises
nothing). -/
theorem claim_c3 (bridge : BridgeOracle) (tool_name : String)
    (arguments : Args) (h : toolRegistry.lookup tool_name = none) :
    global_tool_handler bridge tool_name arguments
      = [⟨"text", "Error: Tool \x27" ++ tool_name ++ "\x27 not found"⟩] := by
  simp [global_tool_handler, h]

/-- Witness for C3: `nonexistent_tool` is not registered and dispatch
answers with the exact not-found block. -/
theorem claim_c3_witness :
    toolRegistry.lookup "nonexistent_tool" = none
    ∧ global_tool_handler (fun _ => .ok .null) "nonexistent_tool" []
      = [⟨"text", "Error: Tool \x27nonexistent_tool\x27 not found"⟩] :=
  ⟨rfl, claim_c3 _ _ _ rfl⟩

/-- Counterexample to C6 as stated: the `search_proteins` schema marks
`query` as required, yet its handler called with an empty arguments
mapping does not fail — it proceeds with `query` defaulted to `""`
(calling `bridge.search_proteins("", 20, 0)`), and dispatch returns an
ordinary serialized result, not a validation error. -/
theorem claim_c6_counterexample :
    tool_definitions.find? (fun t => t.name == "search_proteins")
      = some ⟨"search_proteins", ["query"]⟩
    ∧ toolRegistry.lookup "search_proteins" = some search_proteins_tool
    ∧ search_proteins_tool []
      = .ok (.searchProteins (.str "") (.num 20) (.num 0))
    ∧ global_tool_handler (fun _ => .ok .null) "search_proteins" []
      = [⟨"text", "null"⟩] :=
  ⟨rfl, rfl, rfl, rfl⟩

/-- Claim C6 (amended): every registered tool other than the nine search
tools validates each schema-required parameter — with the argument absent
or empty the handler raises `<param> parameter is required` and dispatch
surfaces `Error: <param> parameter is required` — while each of the nine
search tools accepts an empty arguments mapping and proceeds (its handler
succeeds, defaulting the schema-required `query` to `""`). -/
theorem claim_c6 :
    (tool_definitions.all (fun t =>
      if searchToolNames.contains t.name then
        match toolRegistry.lookup t.name with
        | some handler => (handler []).isOk
        | none => false
      else t.required.all (fun p =>
        (match toolRegistry.lookup t.name with
         | some handler =>
           (match handler [] with
            | .error m => m == p ++ " parameter is required"
            | .ok _ => false)
           && (match handler [(p, Json.str "")] with
               | .error m => m == p ++ " parameter is required"
               | .ok _ => false)
         | none => false)
        && (global_tool_handler (fun _ => .ok .null) t.name []
              == [⟨"text", "Error: " ++ p ++ " parameter is required"⟩])))) = true :=
  rfl

/-- Claim C7: `find_protein_accession` with a table organism ("mouse")
builds its query with `taxid=10090` and no `organism` parameter; with an
unmapped organism ("zebrafish") it passes `organism` verbatim and no
`taxid`; the full built dicts are shown, `gene` carrying the searched
name in both. -/
theorem claim_c7 (gene : String) :
    (find_protein_accession_params gene "mouse").lookup "taxid"
      = some (.str "10090")
    ∧ (find_protein_accession_params gene "mouse").lookup "organism" = none
    ∧ (find_protein_accession_params gene "zebrafish").lookup "organism"
      = some (.str "zebrafish")
    ∧ (find_protein_accession_params gene "zebrafish").lookup "taxid" = none
    ∧ find_protein_accession_params gene "mouse"
      = [("offset", .num 0), ("size", .num 10), ("taxid", .str "10090"),
         ("gene", .str gene)]
    ∧ find_protein_accession_params gene "zebrafish"
      = [("offset", .num 0), ("size", .num 10),
         ("organism", .str "zebrafish"), ("gene", .str gene)] :=
  ⟨rfl, rfl, rfl, rfl, rfl, rfl⟩

/-- Claim C8: when the features sub-call fails with message `e` and the
interactions sub-call succeeds with payload `interactions`,
`get_protein_summary` still returns (never raises) a composite dict that
carries the `interactions` payload and a `features_error` string field
recording the failure, alongside the accession and basic info. -/
theorem claim_c8 (e : String) (interactions : Json) (gene organism : String) :
    get_protein_summary
      ⟨.ok (.arr [.obj [("accession", .str "P12345")]]), .error e,
        .ok interactions⟩ gene organism
      = .ok (.obj [("gene_name", .str gene), ("organism", .str organism),
          ("accession", .str "P12345"),
          ("basic_info", .obj [("accession", .str "P12345")]),
          ("features_error", .str e), ("interactions", interactions)])
    ∧ ([("gene_name", Json.str gene), ("organism", Json.str organism),
        ("accession", Json.str "P12345"),
        ("basic_info", Json.obj [("accession", Json.str "P12345")]),
        ("features_error", Json.str e),
        ("interactions", interactions)].lookup "interactions"
          = some interactions)
    ∧ ([("gene_name", Json.str gene), ("organism", Json.str organism),
        ("accession", Json.str "P12345"),
        ("basic_info", Json.obj [("accession", Json.str "P12345")]),
        ("features_error", Json.str e),
        ("interactions", interactions)].lookup "features_error"
          = some (Json.str e)) :=
  ⟨rfl, rfl, rfl⟩

/-- Counterexample to C9 as stated: path parameters are NOT URL-escaped.
The URL built for `get_protein_by_accession("P 1")` contains the raw
space character, while a URL-escaped component can never contain a space
(`quote_plus` would have produced `P+1`, and a space is not a URL-safe
character). -/
theorem claim_c9_counterexample :
    buildUrl base_url (proteinByAccessionEndpoint "P 1") none
      = "https://www.ebi.ac.uk/proteins/api/proteins/P 1"
    ∧ ' ' ∈ (buildUrl base_url (proteinByAccessionEndpoint "P 1") none).data
    ∧ quote_plus "P 1" = "P+1"
    ∧ urlSafeChar ' ' = false :=
  ⟨rfl, by decide, rfl, rfl⟩

/-- Claim C9 (amended): the full URL joins base and path with exactly one
slash at the boundary (the stripped base never ends in `/`, the stripped
endpoint never starts with `/`); query parameters with value `None` are
dropped before encoding and the encoded query is URL-escaped (every
character `quote_plus` emits is URL-safe; concretely the `None`-valued
`organism` vanishes and `p 53&x=1` becomes `p+53%26x%3D1`); path
parameters, however, are interpolated into the endpoint verbatim,
unescaped. -/
theorem claim_c9 (baseUrl endpoint component : String) :
    (rstripSlash baseUrl ++ "/" ++ lstripSlash endpoint).data
      = (rstripSlash baseUrl).data ++ '/' :: (lstripSlash endpoint).data
    ∧ (rstripSlash baseUrl).data.getLast? ≠ some '/'
    ∧ (lstripSlash endpoint).data.head? ≠ some '/'
    ∧ (∀ c ∈ (quote_plus component).data, urlSafeChar c = true)
    ∧ buildUrl base_url "/proteins"
        (some [("taxid", .str "9606"), ("organism", ParamVal.null),
               ("gene", .str "p 53&x=1")])
      = "https://www.ebi.ac.uk/proteins/api/proteins?taxid=9606&gene=p+53%26x%3D1"
    ∧ proteinByAccessionEndpoint component = "proteins/" ++ component := by
  refine ⟨?_, ?_, ?_, quote_plus_safe component, rfl, rfl⟩
  · simp [String.data_append]
  · show ((baseUrl.data.reverse.dropWhile (· == '/')).reverse).getLast?
      ≠ some '/'
    rw [List.getLast?_reverse]
    exact head?_dropWhile_slash _
  · exact head?_dropWhile_slash _

/-- Witness for C9 (amended): instantiated at the protein-search endpoint
and a query component with a space. -/
theorem claim_c9_witness :
    'p' ∈ (quote_plus "p 53").data
    ∧ urlSafeChar 'p' = true :=
  ⟨by decide, (claim_c9 base_url "/proteins" "p 53").2.2.2.1 'p' (by decide)⟩

/-- Claim C10: `get_protein_summary` never raises — its result is `.ok`
for every oracle environment — and each total-failure case returns a dict
whose only field is the `error` string: a failing accession search, an
empty search result, and a first result without an accession. -/
theorem claim_c10 (env : SummaryEnv) (gene organism e : String) :
    ((get_protein_summary env gene organism).isOk = true)
    ∧ get_protein_summary ⟨.error e, env.featuresResult,
        env.interactionsResult⟩ gene organism
      = .ok (.obj [("error",
          .str ("Failed to get protein summary: " ++ e))])
    ∧ get_protein_summary ⟨.ok (.arr []), env.featuresResult,
        env.interactionsResult⟩ gene organism
      = .ok (.obj [("error",
          .str ("No protein found for " ++ gene ++ " in " ++ organism))])
    ∧ get_protein_summary ⟨.ok (.arr [.obj []]), env.featuresResult,
        env.interactionsResult⟩ gene organism
      = .ok (.obj [("error", .str "No accession found in search results")]) := by
  refine ⟨?_, rfl, rfl, rfl⟩
  obtain ⟨fr, fe, ir⟩ := env
  cases fr with
  | error e' => rfl
  | ok r =>
    unfold get_protein_summary
    dsimp only
    split
    · rfl
    · split <;> rfl
